import Mathlib

set_option linter.unusedVariables false

/-!
Shallow embedding of the aws-expert service: the FastAPI facade in
`api.py` (request validation, topic defaulting, the crew dispatch in
`run_crew_sync`, the response envelope, the health endpoint) and the
knowledge tool in `src/crew/tools/aws.py` (`SimplifiedAWSKnowledgeTool`).

External effects are made explicit: the crew handle is an abstract record
of the callables the adapter probes for, dispatch records which kickoff
calls were made and with which inputs, and the knowledge tool returns the
list of network requests it issued alongside its text (the source issues
none: the `requests` import is never used).
-/

/-- Truthiness of a Python `Optional[str]`: `None` and `""` are falsy. -/
def pyTruthyOpt : Option String → Bool
  | none => false
  | some s => !s.data.isEmpty

/-- Python `a or b` for `a : Optional[str]`, `b : str`: yields `b` when `a`
is `None` or the empty string, else the string in `a`.  Embeds
`request.topic or request.query` and `service if service else d`. -/
def pyOr (a : Option String) (b : String) : String :=
  match a with
  | none => b
  | some s => if s.data.isEmpty then b else s

/-- Python `s * n` for a string: `n` concatenated copies of `s`. -/
def pyRepeat (s : String) (n : Nat) : String :=
  String.join (List.replicate n s)

/-- Python `s.upper()` (the inputs here are ASCII). -/
def pyUpper (s : String) : String :=
  ⟨s.data.map Char.toUpper⟩

/-- Python `s.lower()` (the inputs here are ASCII). -/
def pyLower (s : String) : String :=
  ⟨s.data.map Char.toLower⟩

/-- Whether `sub` occurs as a contiguous run inside the character list. -/
def listContainsRun (sub : List Char) : List Char → Bool
  | [] => sub.isEmpty
  | c :: cs => sub.isPrefixOf (c :: cs) || listContainsRun sub cs

/-- Python `sub in s` on strings: contiguous substring occurrence. -/
def pyContains (s sub : String) : Bool :=
  listContainsRun sub.data s.data

namespace SimplifiedAWSKnowledgeTool

/-- Body of `_generate_search_results`: the fixed search-results template,
with the query interpolated, an optional `Service Focus` line when the
`service` argument is truthy, and the `service if service else
'relevant services'` interpolation in the next-steps section. -/
def _generate_search_results (query : String) (service : Option String) : String :=
  "AWS Information for: " ++ query ++ "\n"
  ++ pyRepeat "=" 50 ++ "\n\n"
  ++ (if pyTruthyOpt service then "Service Focus: " ++ pyUpper (service.getD "") ++ "\n\n" else "")
  ++ "Key Points:\n"
  ++ "• This query relates to AWS services and best practices\n"
  ++ "• For detailed information, refer to AWS Documentation\n"
  ++ "• Consider security, cost optimization, and scalability\n\n"
  ++ "Recommended Next Steps:\n"
  ++ "• Check AWS Documentation for " ++ pyOr service "relevant services" ++ "\n"
  ++ "• Review AWS Well-Architected Framework principles\n"
  ++ "• Consider using AWS CLI or SDK for implementation\n\n"
  ++ "Additional Resources:\n"
  ++ "• AWS Documentation: https://docs.aws.amazon.com/\n"
  ++ "• AWS Well-Architected: https://aws.amazon.com/architecture/well-architected/\n"

/-- The static service-name → one-line description mapping inside
`_generate_aws_guidance`, in the dict's insertion order. -/
def aws_services_info : List (String × String) :=
  [("ec2", "Amazon EC2 provides scalable compute capacity in the cloud"),
   ("s3", "Amazon S3 is object storage built to store and retrieve any amount of data"),
   ("rds", "Amazon RDS makes it easy to set up, operate, and scale a relational database"),
   ("lambda", "AWS Lambda lets you run code without provisioning or managing servers"),
   ("vpc", "Amazon VPC lets you provision a logically isolated section of AWS Cloud"),
   ("iam", "AWS IAM enables you to manage access to AWS services and resources securely"),
   ("cloudformation", "AWS CloudFormation gives you an easy way to model AWS resources"),
   ("cloudwatch", "Amazon CloudWatch is a monitoring service for AWS resources and applications")]

/-- The `mentioned_services` accumulation loop of `_generate_aws_guidance`:
keep a mapping entry when its key occurs in the lowercased query, or the
`service` argument is truthy and lowercases to the key. -/
def mentioned_services (query : String) (service : Option String) : List (String × String) :=
  aws_services_info.filter fun p =>
    pyContains (pyLower query) p.1
      || (pyTruthyOpt service && (pyLower (service.getD "") == p.1))

/-- Body of `_generate_aws_guidance`: header, a `Relevant AWS Services`
section listing each mentioned service's description when any service was
mentioned, then the fixed best-practices boilerplate. -/
def _generate_aws_guidance (query : String) (service : Option String) : String :=
  "AWS Guidance for: " ++ query ++ "\n"
  ++ pyRepeat "=" 50 ++ "\n\n"
  ++ (if (mentioned_services query service).isEmpty then ""
      else "Relevant AWS Services:\n"
        ++ String.join ((mentioned_services query service).map fun p =>
             "• " ++ pyUpper p.1 ++ ": " ++ p.2 ++ "\n")
        ++ "\n")
  ++ "AWS Best Practices:\n"
  ++ "• Follow the Well-Architected Framework principles\n"
  ++ "• Implement proper security measures (IAM, security groups)\n"
  ++ "• Use infrastructure as code (CloudFormation/CDK)\n"
  ++ "• Monitor and log your resources (CloudWatch)\n"
  ++ "• Optimize costs with right-sizing and reserved instances\n\n"
  ++ "For specific implementation details, please refer to:\n"
  ++ "• AWS Documentation: https://docs.aws.amazon.com/\n"
  ++ "• AWS Architecture Center: https://aws.amazon.com/architecture/\n"

/-- `_search_aws_docs`: the placeholder body returns `None`; its `try`
cannot raise.  Second component: network requests issued (none). -/
def _search_aws_docs (query : String) (service : Option String) :
    Option String × List String :=
  (none, [])

/-- `_web_search_aws`: constructs `search_query` but performs no web call;
returns the generated search-results text.  Second component: network
requests issued (none). -/
def _web_search_aws (query : String) (service : Option String) :
    Option String × List String :=
  let search_query :=
    "AWS " ++ pyOr service "" ++ " " ++ query
      ++ " site:docs.aws.amazon.com OR site:aws.amazon.com"
  (some (_generate_search_results query service), [])

/-- The `try` body of `_run`: method 1 (`_search_aws_docs`), else method 2
(`_web_search_aws`), else method 3 (`_generate_aws_guidance`), each result
tested with Python truthiness.  `Except.error` would carry an exception
escaping the body; the body raises nowhere. -/
def _run_except (query : String) (service : Option String) :
    Except String String × List String :=
  let aws_info := (_search_aws_docs query service).1
  let net₁ := (_search_aws_docs query service).2
  if pyTruthyOpt aws_info then (.ok (aws_info.getD ""), net₁)
  else
    let web_results := (_web_search_aws query service).1
    let net₂ := (_web_search_aws query service).2
    if pyTruthyOpt web_results then (.ok (web_results.getD ""), net₁ ++ net₂)
    else (.ok (_generate_aws_guidance query service), net₁ ++ net₂)

/-- The message returned by the `except` clause of `_run` for an exception
rendered as `e`. -/
def _run_error_message (e : String) : String :=
  "I encountered an error while searching for AWS information: " ++ e
    ++ ". Please try rephrasing your question."

/-- `_run`: the `try` body's result, or the apologetic message when the
body raised.  Second component: network requests issued. -/
def _run (query : String) (service : Option String) : String × List String :=
  match (_run_except query service).1 with
  | .ok r => (r, (_run_except query service).2)
  | .error e => (_run_error_message e, (_run_except query service).2)

end SimplifiedAWSKnowledgeTool

/-- Request body of `POST /query` (pydantic model `QueryRequest`):
`query` is a required string, `topic` an optional string. -/
structure QueryRequest where
  query : String
  topic : Option String := none
deriving DecidableEq

/-- Response envelope of `POST /query` (pydantic model `QueryResponse`);
`error` defaults to `None`. -/
structure QueryResponse where
  success : Bool
  result : String
  error : Option String := none
deriving DecidableEq

/-- The inputs dict built by `process_query` and passed to the crew:
`{'topic': ..., 'query': ...}`. -/
structure PipelineInput where
  topic : String
  query : String
deriving DecidableEq

/-- Request validation as the declared pydantic model performs it: `query`
must be present (a string of any content, the empty string included);
`topic` may be absent.  A `none` result is a 422 rejection before the
handler body runs. -/
def QueryRequest.validate (query : Option String) (topic : Option String) :
    Option QueryRequest :=
  match query with
  | none => none
  | some q => some { query := q, topic := topic }

/-- The crew object as `run_crew_sync` sees it: whether `hasattr(ci,
'crew')` holds, and the outcomes of the two kickoff callables on given
inputs (`Except.error` models a raised exception, carrying `str(e)`). -/
structure CrewHandle where
  hasCrewAttr : Bool
  kickoffPrimary : PipelineInput → Except String String
  kickoffManual : PipelineInput → Except String String

/-- The module state: the global `crew_instance`, `None` until first use. -/
structure AppState where
  crew_instance : Option CrewHandle

/-- `get_crew_instance`: return the cached instance, or construct one
(`fresh` stands for the `AWSCrew()` the constructor would produce) and
cache it. -/
def get_crew_instance (st : AppState) (fresh : CrewHandle) :
    CrewHandle × AppState :=
  match st.crew_instance with
  | some ci => (ci, st)
  | none => (fresh, ⟨some fresh⟩)

/-- Which kickoff calls `run_crew_sync` made, with the inputs passed to
each. -/
structure DispatchTrace where
  primaryKickoffs : List PipelineInput
  manualKickoffs : List PipelineInput
deriving DecidableEq

/-- All inputs handed to any kickoff call, in order. -/
def dispatchedInputs (tr : DispatchTrace) : List PipelineInput :=
  tr.primaryKickoffs ++ tr.manualKickoffs

/-- `run_crew_sync`: resolve the instance, then dispatch on
`hasattr(crew_instance, 'crew')` — the `crew().kickoff(inputs)` branch
when the attribute is present, the manually assembled crew's
`kickoff(inputs)` otherwise.  A raise from the taken branch is caught and
re-raised as `Exception("Error running crew: " + str(e))`. -/
def run_crew_sync (st : AppState) (fresh : CrewHandle) (inputs : PipelineInput) :
    Except String String × DispatchTrace × AppState :=
  let ci := (get_crew_instance st fresh).1
  let st' := (get_crew_instance st fresh).2
  if ci.hasCrewAttr then
    match ci.kickoffPrimary inputs with
    | .ok r => (.ok r, ⟨[inputs], []⟩, st')
    | .error e => (.error ("Error running crew: " ++ e), ⟨[inputs], []⟩, st')
  else
    match ci.kickoffManual inputs with
    | .ok r => (.ok r, ⟨[], [inputs]⟩, st')
    | .error e => (.error ("Error running crew: " ++ e), ⟨[], [inputs]⟩, st')

/-- `process_query`: build the inputs dict (`topic` is `request.topic or
request.query`), run the crew, and wrap the outcome in the response
envelope — `success=True` with the result text, or `success=False` with
an empty result and the exception text. -/
def process_query (st : AppState) (fresh : CrewHandle) (request : QueryRequest) :
    QueryResponse × DispatchTrace × AppState :=
  let inputs : PipelineInput :=
    { topic := pyOr request.topic request.query, query := request.query }
  let out := run_crew_sync st fresh inputs
  match out.1 with
  | .ok result => ({ success := true, result := result, error := none }, out.2.1, out.2.2)
  | .error e => ({ success := false, result := "", error := some e }, out.2.1, out.2.2)

/-- Body of `GET /health`. -/
structure HealthBody where
  status : String
  message : String
deriving DecidableEq

/-- `health_check`: returns a fixed body; the handler body reads and
writes no module state. -/
def health_check (st : AppState) : HealthBody × AppState :=
  ({ status := "healthy", message := "AWS Expert API is running" }, st)

/-- Helper: a string whose head piece has characters stays non-empty under
appending on the right. -/
theorem isEmpty_data_append_left (s t : String) (h : s.data.isEmpty = false) :
    ((s ++ t).data).isEmpty = false := by
  rw [String.data_append]
  cases hs : s.data with
  | nil => rw [hs] at h; simp [List.isEmpty] at h
  | cons a l => simp

/-- The search-results template is never the empty string. -/
theorem generate_search_results_not_empty
    (q : String) (s : Option String) :
    ((SimplifiedAWSKnowledgeTool._generate_search_results q s).data).isEmpty = false := by
  unfold SimplifiedAWSKnowledgeTool._generate_search_results
  repeat apply isEmpty_data_append_left
  decide

/-- The `try` body of `_run` always succeeds with the search-results
template and issues no network request: method 1 yields `None`, method 2
always yields the (non-empty) template. -/
theorem run_except_eq (q : String) (s : Option String) :
    SimplifiedAWSKnowledgeTool._run_except q s =
      (.ok (SimplifiedAWSKnowledgeTool._generate_search_results q s), []) := by
  unfold SimplifiedAWSKnowledgeTool._run_except
  unfold SimplifiedAWSKnowledgeTool._search_aws_docs SimplifiedAWSKnowledgeTool._web_search_aws
  simp [pyTruthyOpt, generate_search_results_not_empty q s]

/-- `_run` always returns the search-results template and an empty network
trace. -/
theorem run_eq (q : String) (s : Option String) :
    SimplifiedAWSKnowledgeTool._run q s =
      (SimplifiedAWSKnowledgeTool._generate_search_results q s, []) := by
  unfold SimplifiedAWSKnowledgeTool._run
  rw [run_except_eq]

/-- `run_crew_sync` makes exactly one kickoff call, with the inputs it was
given. -/
theorem run_crew_sync_dispatched (st : AppState) (fresh : CrewHandle)
    (inputs : PipelineInput) :
    dispatchedInputs (run_crew_sync st fresh inputs).2.1 = [inputs] := by
  unfold run_crew_sync dispatchedInputs
  dsimp only
  split <;> split <;> rfl

/-- `process_query` hands the crew exactly one inputs record: the
request's query, with `topic` computed by Python `or`-defaulting. -/
theorem process_query_dispatched (st : AppState) (fresh : CrewHandle)
    (request : QueryRequest) :
    dispatchedInputs (process_query st fresh request).2.1 =
      [{ topic := pyOr request.topic request.query, query := request.query }] := by
  unfold process_query
  dsimp only
  split <;> exact run_crew_sync_dispatched st fresh _

/-- C1: counterexample — with a crew handle that has the `crew` attribute
and whose primary kickoff raises, `run_crew_sync` reports failure to the
caller without ever invoking the manual fallback branch: the branch is
selected by the attribute probe, not by catching the raise. -/
theorem C1_counterexample :
    (run_crew_sync ⟨none⟩
        { hasCrewAttr := true,
          kickoffPrimary := fun _ => .error "boom",
          kickoffManual := fun _ => .ok "fallback" } ⟨"t", "q"⟩).1 =
      .error "Error running crew: boom" ∧
    (run_crew_sync ⟨none⟩
        { hasCrewAttr := true,
          kickoffPrimary := fun _ => .error "boom",
          kickoffManual := fun _ => .ok "fallback" } ⟨"t", "q"⟩).2.1.manualKickoffs = [] :=
  ⟨rfl, rfl⟩

/-- C1 (amended): the manual fallback branch runs exactly when the crew
handle lacks the `crew` attribute; when the attribute is present only the
primary branch is invoked, whether or not it raises. -/
theorem C1_amended_branch_selection (st : AppState) (fresh : CrewHandle)
    (inputs : PipelineInput) :
    ((get_crew_instance st fresh).1.hasCrewAttr = true →
      (run_crew_sync st fresh inputs).2.1.manualKickoffs = [] ∧
      (run_crew_sync st fresh inputs).2.1.primaryKickoffs = [inputs]) ∧
    ((get_crew_instance st fresh).1.hasCrewAttr = false →
      (run_crew_sync st fresh inputs).2.1.primaryKickoffs = [] ∧
      (run_crew_sync st fresh inputs).2.1.manualKickoffs = [inputs]) := by
  unfold run_crew_sync
  dsimp only
  constructor <;> intro h <;> simp [h] <;> split <;> simp

/-- C1 (amended) at a concrete input: a handle with the attribute present
dispatches only the primary branch. -/
theorem C1_amended_branch_selection_witness :
    (run_crew_sync ⟨none⟩
        { hasCrewAttr := true,
          kickoffPrimary := fun _ => .error "boom",
          kickoffManual := fun _ => .ok "fallback" } ⟨"t", "q"⟩).2.1.manualKickoffs = [] ∧
    (run_crew_sync ⟨none⟩
        { hasCrewAttr := true,
          kickoffPrimary := fun _ => .error "boom",
          kickoffManual := fun _ => .ok "fallback" } ⟨"t", "q"⟩).2.1.primaryKickoffs =
      [⟨"t", "q"⟩] :=
  (C1_amended_branch_selection ⟨none⟩
    { hasCrewAttr := true,
      kickoffPrimary := fun _ => .error "boom",
      kickoffManual := fun _ => .ok "fallback" } ⟨"t", "q"⟩).1 rfl

/-- C2: counterexample — a `POST /query` body with `query = ""` passes
the pydantic validation and the crew is dispatched (one kickoff call,
with topic and query both empty): execution is not prevented. -/
theorem C2_counterexample :
    QueryRequest.validate (some "") none = some { query := "", topic := none } ∧
    dispatchedInputs (process_query ⟨none⟩
        { hasCrewAttr := true,
          kickoffPrimary := fun _ => .ok "r",
          kickoffManual := fun _ => .ok "r" } { query := "", topic := none }).2.1 =
      [{ topic := "", query := "" }] :=
  ⟨rfl, rfl⟩

/-- C2 (amended): an empty query is accepted by validation (the model
imposes no non-emptiness constraint) and, for every adapter state, is
dispatched to the crew exactly once with `topic = query = ""`. -/
theorem C2_amended_empty_query_dispatched (st : AppState) (fresh : CrewHandle) :
    QueryRequest.validate (some "") none = some { query := "", topic := none } ∧
    dispatchedInputs (process_query st fresh { query := "", topic := none }).2.1 =
      [{ topic := "", query := "" }] :=
  ⟨rfl, process_query_dispatched st fresh _⟩

/-- C3: every response envelope built by `process_query` satisfies the
invariant — on success the `error` field is `None`, on failure the
`result` field is the empty string. -/
theorem C3_envelope_invariant (st : AppState) (fresh : CrewHandle)
    (request : QueryRequest) :
    ((process_query st fresh request).1.success = true →
      (process_query st fresh request).1.error = none) ∧
    ((process_query st fresh request).1.success = false →
      (process_query st fresh request).1.result = "") := by
  unfold process_query
  dsimp only
  split <;> simp

/-- C3 at a concrete input: a succeeding handle yields an envelope with no
error field. -/
theorem C3_envelope_invariant_witness :
    (process_query ⟨none⟩
        { hasCrewAttr := true,
          kickoffPrimary := fun _ => .ok "use bucket policies",
          kickoffManual := fun _ => .ok "use bucket policies" }
        { query := "How do I secure an S3 bucket?", topic := none }).1.error = none :=
  (C3_envelope_invariant ⟨none⟩
    { hasCrewAttr := true,
      kickoffPrimary := fun _ => .ok "use bucket policies",
      kickoffManual := fun _ => .ok "use bucket policies" }
    { query := "How do I secure an S3 bucket?", topic := none }).1 rfl

/-- C4: counterexample — the wrapping prefix in the source is
`"Error running crew: "`, so the wrapped message for a raised `"boom2"`
does not begin with the claimed `"Error running pipeline: "`. -/
theorem C4_counterexample :
    (run_crew_sync ⟨none⟩
        { hasCrewAttr := true,
          kickoffPrimary := fun _ => .error "boom2",
          kickoffManual := fun _ => .ok "x" } ⟨"t2", "q2"⟩).1 =
      .error "Error running crew: boom2" ∧
    "Error running pipeline: ".data.isPrefixOf "Error running crew: boom2".data = false :=
  ⟨rfl, by decide⟩

/-- C4 (amended): `run_crew_sync` makes exactly one kickoff call, and a
raise in whichever branch was taken is re-raised wrapped as
`"Error running crew: "` followed by the original error text. -/
theorem C4_amended_wrap_and_single_call (st : AppState) (fresh : CrewHandle)
    (inputs : PipelineInput) :
    (dispatchedInputs (run_crew_sync st fresh inputs).2.1).length = 1 ∧
    ((get_crew_instance st fresh).1.hasCrewAttr = true →
      ∀ e, (get_crew_instance st fresh).1.kickoffPrimary inputs = .error e →
        (run_crew_sync st fresh inputs).1 = .error ("Error running crew: " ++ e)) ∧
    ((get_crew_instance st fresh).1.hasCrewAttr = false →
      ∀ e, (get_crew_instance st fresh).1.kickoffManual inputs = .error e →
        (run_crew_sync st fresh inputs).1 = .error ("Error running crew: " ++ e)) := by
  refine ⟨by rw [run_crew_sync_dispatched]; rfl, ?_, ?_⟩ <;>
  · intro h e he
    unfold run_crew_sync
    dsimp only
    simp [h, he]

/-- C4 (amended) at a concrete input: one kickoff call, and the raised
`"kaput"` surfaces wrapped with the crew prefix. -/
theorem C4_amended_wrap_and_single_call_witness :
    (dispatchedInputs (run_crew_sync ⟨none⟩
        { hasCrewAttr := true,
          kickoffPrimary := fun _ => .error "kaput",
          kickoffManual := fun _ => .ok "x" } ⟨"t3", "q3"⟩).2.1).length = 1 ∧
    (run_crew_sync ⟨none⟩
        { hasCrewAttr := true,
          kickoffPrimary := fun _ => .error "kaput",
          kickoffManual := fun _ => .ok "x" } ⟨"t3", "q3"⟩).1 =
      .error ("Error running crew: " ++ "kaput") :=
  ⟨(C4_amended_wrap_and_single_call ⟨none⟩
      { hasCrewAttr := true,
        kickoffPrimary := fun _ => .error "kaput",
        kickoffManual := fun _ => .ok "x" } ⟨"t3", "q3"⟩).1,
   (C4_amended_wrap_and_single_call ⟨none⟩
      { hasCrewAttr := true,
        kickoffPrimary := fun _ => .error "kaput",
        kickoffManual := fun _ => .ok "x" } ⟨"t3", "q3"⟩).2.1 rfl "kaput" rfl⟩

/-- C5: with `topic` omitted, the inputs handed to the crew carry
`topic = query`; with any `topic` supplied, the dispatched inputs carry
the request's query unchanged. -/
theorem C5_topic_defaulting (st : AppState) (fresh : CrewHandle)
    (q : String) (t : Option String) (hq : q ≠ "") :
    dispatchedInputs (process_query st fresh { query := q, topic := none }).2.1 =
      [{ topic := q, query := q }] ∧
    ∀ inp ∈ dispatchedInputs (process_query st fresh { query := q, topic := t }).2.1,
      inp.query = q := by
  constructor
  · rw [process_query_dispatched]
    rfl
  · intro inp hm
    rw [process_query_dispatched] at hm
    simp only [List.mem_singleton] at hm
    rw [hm]

/-- C5 at a concrete input: a non-empty query with no topic is dispatched
with the topic defaulted to the query. -/
theorem C5_topic_defaulting_witness :
    ("How do I secure an S3 bucket?" : String) ≠ "" ∧
    dispatchedInputs (process_query ⟨none⟩
        { hasCrewAttr := true,
          kickoffPrimary := fun _ => .ok "r",
          kickoffManual := fun _ => .ok "r" }
        { query := "How do I secure an S3 bucket?", topic := none }).2.1 =
      [{ topic := "How do I secure an S3 bucket?",
         query := "How do I secure an S3 bucket?" }] :=
  ⟨by decide,
   (C5_topic_defaulting ⟨none⟩
     { hasCrewAttr := true,
       kickoffPrimary := fun _ => .ok "r",
       kickoffManual := fun _ => .ok "r" }
     "How do I secure an S3 bucket?" none (by decide)).1⟩

/-- C6: the knowledge tool is deterministic and performs no network
access — equal `(query, service)` inputs give equal output text, and the
network-request trace of every run is empty. -/
theorem C6_pure_no_network (q₁ q₂ : String) (s₁ s₂ : Option String)
    (hq : q₁ = q₂) (hs : s₁ = s₂) :
    (SimplifiedAWSKnowledgeTool._run q₁ s₁).1 =
      (SimplifiedAWSKnowledgeTool._run q₂ s₂).1 ∧
    (SimplifiedAWSKnowledgeTool._run q₁ s₁).2 = [] := by
  subst hq
  subst hs
  exact ⟨rfl, by rw [run_eq]⟩

/-- C6 at a concrete input: a run on an EC2 query issues no network
request. -/
theorem C6_pure_no_network_witness :
    (SimplifiedAWSKnowledgeTool._run "How to set up an EC2 instance" (some "ec2")).2 = [] :=
  (C6_pure_no_network "How to set up an EC2 instance" "How to set up an EC2 instance"
    (some "ec2") (some "ec2") rfl rfl).2

set_option maxRecDepth 40000 in
/-- C7: counterexample — on a query that mentions the known service
`ec2` (and with `service = "ec2"`), the tool's output does not contain
the static mapping's EC2 description: the mapping-based branch is never
reached. -/
theorem C7_counterexample :
    pyContains (SimplifiedAWSKnowledgeTool._run "How to set up an ec2 instance" (some "ec2")).1
      "Amazon EC2 provides scalable compute capacity in the cloud" = false := by
  decide

/-- C7 (amended): for every input, `_run` returns the fixed search-results
template of `_generate_search_results`; the static-mapping renderer
`_generate_aws_guidance` is unreachable because `_search_aws_docs` always
yields `None` and `_web_search_aws` always yields non-empty text. -/
theorem C7_amended_run_is_template (q : String) (s : Option String) :
    (SimplifiedAWSKnowledgeTool._run q s).1 =
      SimplifiedAWSKnowledgeTool._generate_search_results q s := by
  rw [run_eq]

/-- C8: `GET /health` returns the fixed healthy body for every module
state and leaves the state — in particular the `crew_instance`
singleton — untouched. -/
theorem C8_health_static_and_frame (st : AppState) :
    (health_check st).1.status = "healthy" ∧
    (health_check st).2 = st ∧
    (health_check st).2.crew_instance = st.crew_instance :=
  ⟨rfl, rfl, rfl⟩

/-- C9: a present-but-empty `topic` is discarded by the Python `or`
defaulting — the dispatched inputs carry `topic = query`. -/
theorem C9_empty_topic_defaults (st : AppState) (fresh : CrewHandle) (q : String) :
    dispatchedInputs (process_query st fresh { query := q, topic := some "" }).2.1 =
      [{ topic := q, query := q }] := by
  rw [process_query_dispatched]
  rfl

/-- C10: `_run` is total at its interface — the `try` body always
succeeds (no exception escapes) and its value is returned; and the
`except` clause's message always begins with the apologetic prefix. -/
theorem C10_run_total (q : String) (s : Option String) :
    (∃ r, (SimplifiedAWSKnowledgeTool._run_except q s).1 = .ok r ∧
          (SimplifiedAWSKnowledgeTool._run q s).1 = r) ∧
    ∀ e, ∃ rest, SimplifiedAWSKnowledgeTool._run_error_message e =
      "I encountered an error while searching for AWS information:" ++ rest := by
  constructor
  · exact ⟨SimplifiedAWSKnowledgeTool._generate_search_results q s,
      by rw [run_except_eq], by rw [run_eq]⟩
  · intro e
    refine ⟨" " ++ e ++ ". Please try rephrasing your question.", ?_⟩
    unfold SimplifiedAWSKnowledgeTool._run_error_message
    rw [show ("I encountered an error while searching for AWS information: " : String) =
      "I encountered an error while searching for AWS information:" ++ " " from rfl]
    rw [String.append_assoc, String.append_assoc, String.append_assoc]
